import Mathlib

/-!
Verification development for the semantic-search feature of the bolthackathon
repository: the `semantic-search` edge function
(`supabase/functions/semantic-search/index.ts`) and the `match_members` SQL
function (`supabase/migrations/20250626110138_young_moon.sql`).

Modelling conventions:
- JavaScript numbers that hold similarity scores are modelled as `Rat`
  (exact rationals).  Because `Rat.add`/`Rat.sub` do not reduce in the kernel,
  the embedding uses `ratAdd`/`ratSub` (defined through `mkRat`, which does
  reduce) and proves them equal to `+`/`-` once.
- JavaScript strings are modelled through their character lists;
  `jsToLower`, `jsTrim`, `jsSplitSpace` and `strIncludes` mirror
  `toLowerCase`, `trim`, `split(' ')` and `includes` for the character sets
  exercised here.
- The edge function's external collaborators (the embedding model, the
  `match_members` RPC transport, the PostgREST text query) are collected in an
  `Env` record; each can succeed or fail, mirroring `throw`.
- The pgvector cosine-distance operator `<=>` is not part of this repository;
  it appears as the abstract parameter `dist` of `match_members`.
- Request bodies are modelled post-JSON-parsing; `none` stands for a parse
  failure, the `query` field is `Option String` (`none` = absent or not a
  string), the `limit` field is `Option Nat`.
- Wall-clock timestamps in response bodies are not modelled; response bodies
  keep the remaining fields of the literal JSON objects built by the handler.
-/

namespace SemanticSearch

/-! ### Kernel-computable rational helpers -/

/-- Rational addition through `mkRat`, so that the kernel can evaluate it.
Proved equal to `Rat` addition in `ratAdd_eq`. -/
def ratAdd (a b : Rat) : Rat :=
  mkRat (a.num * b.den + b.num * a.den) (a.den * b.den)

/-- Rational subtraction through `mkRat`, so that the kernel can evaluate it.
Proved equal to `Rat` subtraction in `ratSub_eq`. -/
def ratSub (a b : Rat) : Rat :=
  mkRat (a.num * b.den - b.num * a.den) (a.den * b.den)

theorem ratAdd_eq (a b : Rat) : ratAdd a b = a + b :=
  (Rat.add_def' a b).symm

theorem ratSub_eq (a b : Rat) : ratSub a b = a - b :=
  (Rat.sub_def' a b).symm

/-! ### JavaScript string primitives -/

/-- `listStartsWith t s` : the character list `t` is an initial segment of `s`. -/
def listStartsWith : List Char → List Char → Bool
  | [], _ => true
  | _ :: _, [] => false
  | a :: as, b :: bs => a == b && listStartsWith as bs

/-- `listOccurs t s` : the character list `t` occurs contiguously inside `s`. -/
def listOccurs (t : List Char) : List Char → Bool
  | [] => listStartsWith t []
  | b :: bs => listStartsWith t (b :: bs) || listOccurs t bs

/-- JavaScript `s.includes(t)` (substring containment). -/
def strIncludes (s t : String) : Bool :=
  listOccurs t.data s.data

/-- JavaScript `String.prototype.toLowerCase` (ASCII case folding). -/
def jsToLower (s : String) : String :=
  ⟨s.data.map Char.toLower⟩

/-- Split a character list at every character satisfying `p`
(JavaScript `split` semantics: separators delimit fields, so consecutive
separators yield empty fields and the empty input yields `[""]`). -/
def splitBy (p : Char → Bool) : List Char → List String
  | [] => [""]
  | c :: cs =>
    let rest := splitBy p cs
    if p c then "" :: rest
    else
      match rest with
      | [] => [⟨[c]⟩]
      | r :: rs => (⟨c :: r.data⟩ : String) :: rs

/-- JavaScript `s.split(' ')` (split at the single space character). -/
def jsSplitSpace (s : String) : List String :=
  splitBy (fun c => c == ' ') s.data

/-- JavaScript `String.prototype.trim`: drop leading and trailing whitespace. -/
def jsTrim (s : String) : String :=
  ⟨((s.data.dropWhile Char.isWhitespace).reverse.dropWhile Char.isWhitespace).reverse⟩

theorem jsTrim_length_le (s : String) : (jsTrim s).length ≤ s.length := by
  show (((s.data.dropWhile Char.isWhitespace).reverse.dropWhile
      Char.isWhitespace).reverse).length ≤ s.data.length
  rw [List.length_reverse]
  calc ((s.data.dropWhile Char.isWhitespace).reverse.dropWhile Char.isWhitespace).length
      ≤ (s.data.dropWhile Char.isWhitespace).reverse.length :=
        (List.dropWhile_sublist Char.isWhitespace).length_le
    _ = (s.data.dropWhile Char.isWhitespace).length := List.length_reverse _
    _ ≤ s.data.length := (List.dropWhile_sublist Char.isWhitespace).length_le

/-! ### Data model -/

/-- An embedding vector (`vector(384)` in the schema; the dimension plays no
role in the verified properties). -/
abbrev Emb := List Rat

/-- A row of the `members` table joined with its team name, as consumed by the
edge function (`team` comes from `LEFT JOIN teams` / `team:teams(name)`). -/
structure DbMember where
  id : Nat
  name : String
  email : String
  role : String
  description : Option String
  skills : Option (List String)
  profile_picture : Option String
  team : Option String
  embedding : Option Emb
deriving DecidableEq

/-- A row returned by the `match_members` SQL function. -/
structure MatchRow where
  id : Nat
  name : String
  email : String
  role : String
  description : Option String
  skills : Option (List String)
  profile_picture : Option String
  team : Option String
  match_score : Rat
  distance : Rat
deriving DecidableEq

/-- The `SearchResult` interface of the edge function. -/
structure SearchResult where
  id : Nat
  name : String
  email : String
  role : String
  description : Option String
  skills : List String
  profile_picture : Option String
  team : Option String
  similarity_score : Rat
deriving DecidableEq

/-! ### `match_members` (SQL) -/

/-- The `similarity_threshold float DEFAULT 0.1` of `match_members`. -/
def similarity_threshold_default : Rat := mkRat 1 10

/-- The row `match_members` builds for member `m` with embedding `e`:
`match_score = 1 - (m.embedding <=> query_embedding)`,
`distance = m.embedding <=> query_embedding`. -/
def matchRowOf (dist : Emb → Emb → Rat) (query_embedding : Emb) (m : DbMember) (e : Emb) :
    MatchRow :=
  { id := m.id, name := m.name, email := m.email, role := m.role,
    description := m.description, skills := m.skills,
    profile_picture := m.profile_picture, team := m.team,
    match_score := ratSub 1 (dist e query_embedding),
    distance := dist e query_embedding }

/-- `ORDER BY m.embedding <=> query_embedding` (ascending distance). -/
def distLe (a b : MatchRow) : Prop := a.distance ≤ b.distance

instance : DecidableRel distLe :=
  fun a b => inferInstanceAs (Decidable (a.distance ≤ b.distance))

instance : IsTotal MatchRow distLe :=
  ⟨fun a b => le_total a.distance b.distance⟩

instance : IsTrans MatchRow distLe :=
  ⟨fun _ _ _ h1 h2 => le_trans h1 h2⟩

/-- The `match_members` SQL function: keep members with a non-null embedding
whose similarity `1 - dist` meets the threshold, order by ascending distance,
and return at most `match_count` rows.  `dist` stands for the pgvector cosine
distance operator `<=>`, which is external to the repository. -/
def match_members (dist : Emb → Emb → Rat) (table : List DbMember) (query_embedding : Emb)
    (match_count : Nat) (similarity_threshold : Rat) : List MatchRow :=
  (List.insertionSort distLe
    (table.filterMap fun m =>
      match m.embedding with
      | none => none
      | some e =>
        if similarity_threshold ≤ ratSub 1 (dist e query_embedding) then
          some (matchRowOf dist query_embedding m e)
        else none)).take match_count

/-! ### Environment of the edge function -/

/-- The edge function's external collaborators.  `envOk` models the presence of
the `SUPABASE_URL`/`SUPabase_SERVICE_ROLE_KEY` environment variables; `embed`
models `generateEmbedding` (its failure is the thrown `Error`); `rpcError`,
when set, makes the `match_members` RPC call fail; `textError`, when set,
makes the PostgREST query of `performTextSearch` fail. -/
structure Env where
  envOk : Bool
  embed : String → Except String Emb
  dist : Emb → Emb → Rat
  table : List DbMember
  rpcError : Option String
  textError : Option String

/-- JavaScript `x || 0` for a number `x` (only `0` is falsy among rationals). -/
def jsOrZero (x : Rat) : Rat :=
  if x = 0 then 0 else x

/-- JavaScript `match.team ? { name: match.team } : undefined`
(the empty string is falsy). -/
def jsTeamField (t : Option String) : Option String :=
  match t with
  | some s => if s = "" then none else some s
  | none => none

/-- The transformation `matches.map(...)` of `performSemanticSearch`. -/
def semanticResultOf (r : MatchRow) : SearchResult :=
  { id := r.id, name := r.name, email := r.email, role := r.role,
    description := r.description, skills := r.skills.getD [],
    profile_picture := r.profile_picture, team := jsTeamField r.team,
    similarity_score := jsOrZero r.match_score }

/-- `performSemanticSearch`: generate the query embedding, call the
`match_members` RPC with `similarity_threshold: 0.1`, and map the rows to
search results.  Either step may fail, and the failure propagates. -/
def performSemanticSearch (env : Env) (query : String) (limit : Nat) :
    Except String (List SearchResult) :=
  match env.embed query with
  | Except.error e => Except.error e
  | Except.ok queryEmbedding =>
    match env.rpcError with
    | some e => Except.error e
    | none =>
      Except.ok
        ((match_members env.dist env.table queryEmbedding limit (mkRat 1 10)).map
          semanticResultOf)

/-! ### `performTextSearch` -/

/-- `query.toLowerCase().split(' ').filter(term => term.length > 2)`. -/
def searchTerms (query : String) : List String :=
  (jsSplitSpace (jsToLower query)).filter fun term => 2 < term.length

/-- The OR-condition built for one term:
`name.ilike.%term%`, `role.ilike.%term%`, `description.ilike.%term%`
(case-insensitive substring; `NULL` description matches nothing) and
`skills.cs.{term}` (array containment: exact, case-sensitive element). -/
def memberMatchesTerm (m : DbMember) (term : String) : Bool :=
  strIncludes (jsToLower m.name) term ||
  strIncludes (jsToLower m.role) term ||
  (match m.description with
   | some d => strIncludes (jsToLower d) term
   | none => false) ||
  (m.skills.getD []).contains term

/-- The whole `.or(orConditions.join(','))` filter. -/
def memberMatches (terms : List String) (m : DbMember) : Bool :=
  terms.any fun term => memberMatchesTerm m term

/-- `ORDER BY name` of the text-search query. -/
def nameLe (a b : DbMember) : Prop := a.name ≤ b.name

instance : DecidableRel nameLe :=
  fun a b => inferInstanceAs (Decidable (a.name ≤ b.name))

instance : IsTotal DbMember nameLe :=
  ⟨fun a b => le_total a.name b.name⟩

instance : IsTrans DbMember nameLe :=
  ⟨fun _ _ _ h1 h2 => le_trans h1 h2⟩

/-- The database part of `performTextSearch`: when there is at least one search
term, filter by the OR predicate (no filter otherwise), order by name, and
fetch at most `limit` rows. -/
def textFetch (table : List DbMember) (terms : List String) (limit : Nat) : List DbMember :=
  (List.insertionSort nameLe
    (if terms.isEmpty then table else table.filter fun m => memberMatches terms m)).take limit

/-- `[member.name, member.role, member.description, ...(member.skills || [])].join(' ').toLowerCase()`
(JavaScript `join` renders a null/undefined element as the empty string). -/
def memberText (m : DbMember) : String :=
  jsToLower (String.intercalate " " (m.name :: m.role :: m.description.getD "" :: m.skills.getD []))

/-- The scoring loop of `performTextSearch`: `0.2` per term occurring in
`memberText`, capped at `1.0` by `Math.min(score, 1.0)`. -/
def textScore (terms : List String) (m : DbMember) : Rat :=
  min (terms.foldl
        (fun score term => if strIncludes (memberText m) term then ratAdd score (mkRat 1 5) else score)
        0)
    1

/-- The result object `{...member, similarity_score}` built by
`performTextSearch` (the JavaScript spread keeps the member's fields; a null
skills array surfaces as `[]` in the model). -/
def textResultOf (terms : List String) (m : DbMember) : SearchResult :=
  { id := m.id, name := m.name, email := m.email, role := m.role,
    description := m.description, skills := m.skills.getD [],
    profile_picture := m.profile_picture, team := m.team,
    similarity_score := textScore terms m }

/-- `results.sort((a, b) => b.similarity_score - a.similarity_score)`. -/
def scoreGe (a b : SearchResult) : Prop := b.similarity_score ≤ a.similarity_score

instance : DecidableRel scoreGe :=
  fun a b => inferInstanceAs (Decidable (b.similarity_score ≤ a.similarity_score))

instance : IsTotal SearchResult scoreGe :=
  ⟨fun a b => le_total b.similarity_score a.similarity_score⟩

instance : IsTrans SearchResult scoreGe :=
  ⟨fun _ _ _ h1 h2 => le_trans h2 h1⟩

/-- `performTextSearch`: fetch rows matching the OR predicate, score them, and
sort by descending similarity score.  A database error propagates. -/
def performTextSearch (env : Env) (query : String) (limit : Nat) :
    Except String (List SearchResult) :=
  match env.textError with
  | some e => Except.error e
  | none =>
    Except.ok
      (List.insertionSort scoreGe
        ((textFetch env.table (searchTerms query) limit).map fun m =>
          textResultOf (searchTerms query) m))

/-! ### HTTP layer -/

/-- The parsed request body (`RequestBody` interface).  `query = none` models
an absent or non-string field. -/
structure RequestBody where
  query : Option String
  limit : Option Nat
deriving DecidableEq

/-- An incoming request: its method and its parsed JSON body
(`none` = `req.json()` threw). -/
structure SearchRequest where
  method : String
  body : Option RequestBody
deriving DecidableEq

/-- The response bodies the handler builds.  `successBody` is the JSON object
`{success: true, query, results, count, timestamp}`; `failureBody` is
`{success: false, error, timestamp}`; `errorOnly` is the bare `{error}` object
of the validation and method branches (timestamps are wall-clock values and
are not modelled). -/
inductive ResponseBody where
  | empty : ResponseBody
  | errorOnly (error : String) : ResponseBody
  | successBody (query : String) (results : List SearchResult) (count : Nat) : ResponseBody
  | failureBody (error : String) : ResponseBody
deriving DecidableEq

structure HttpResponse where
  status : Nat
  headers : List (String × String)
  body : ResponseBody
deriving DecidableEq

def corsHeaders : List (String × String) :=
  [("Access-Control-Allow-Origin", "*"),
   ("Access-Control-Allow-Headers", "authorization, x-client-info, apikey, content-type"),
   ("Access-Control-Allow-Methods", "POST, OPTIONS")]

def jsonHeaders : List (String × String) :=
  corsHeaders ++ [("Content-Type", "application/json")]

/-- `Math.min(requestBody.limit || 10, 50)`: a falsy limit (absent or `0`)
defaults to `10`, then the value is capped at `50`. -/
def effectiveLimit (l : Option Nat) : Nat :=
  min (match l with
       | none => 10
       | some n => if n = 0 then 10 else n)
    50

/-- The `try { semantic } catch { try { text } catch { throw } }` block plus
response shaping of the handler, for an already validated query and limit. -/
def searchPipeline (env : Env) (query : String) (limit : Nat) : HttpResponse :=
  match performSemanticSearch env query limit with
  | Except.ok results =>
    { status := 200, headers := jsonHeaders,
      body := ResponseBody.successBody query results results.length }
  | Except.error _ =>
    match performTextSearch env query limit with
    | Except.ok results =>
      { status := 200, headers := jsonHeaders,
        body := ResponseBody.successBody query results results.length }
    | Except.error _ =>
      { status := 500, headers := jsonHeaders,
        body := ResponseBody.failureBody "Search functionality is currently unavailable" }

/-- The `Deno.serve` handler. -/
def handle (env : Env) (req : SearchRequest) : HttpResponse :=
  if req.method = "OPTIONS" then
    { status := 200, headers := corsHeaders, body := ResponseBody.empty }
  else if req.method ≠ "POST" then
    { status := 405, headers := jsonHeaders,
      body := ResponseBody.errorOnly "Method not allowed. Use POST." }
  else if env.envOk = false then
    { status := 500, headers := jsonHeaders,
      body := ResponseBody.failureBody "Missing Supabase environment variables" }
  else
    match req.body with
    | none =>
      { status := 400, headers := jsonHeaders,
        body := ResponseBody.errorOnly "Invalid JSON in request body" }
    | some requestBody =>
      match requestBody.query with
      | none =>
        { status := 400, headers := jsonHeaders,
          body := ResponseBody.errorOnly "Missing or invalid \"query\" field in request body" }
      | some rawQuery =>
        if rawQuery = "" then
          { status := 400, headers := jsonHeaders,
            body := ResponseBody.errorOnly "Missing or invalid \"query\" field in request body" }
        else if (jsTrim rawQuery).length < 3 then
          { status := 400, headers := jsonHeaders,
            body := ResponseBody.errorOnly "Query must be at least 3 characters long" }
        else
          searchPipeline env (jsTrim rawQuery) (effectiveLimit requestBody.limit)

/-! ### Spec-side definitions (for the refinement claim C9) -/

/-- Modelled from the spec: "splits on whitespace into terms >2 characters" —
splitting at every whitespace character rather than at the space character. -/
def specSearchTerms (query : String) : List String :=
  (splitBy Char.isWhitespace (jsToLower query).data).filter fun term => 2 < term.length

/-- Modelled from the spec: "an OR predicate across name/role/description/skills
(substring match)" — case-insensitive substring match on all four fields,
including each skill entry. -/
def specMatchesTerm (m : DbMember) (term : String) : Bool :=
  strIncludes (jsToLower m.name) term ||
  strIncludes (jsToLower m.role) term ||
  (match m.description with
   | some d => strIncludes (jsToLower d) term
   | none => false) ||
  (m.skills.getD []).any fun s => strIncludes (jsToLower s) term

/-- Modelled from the spec: the whole OR predicate over the spec's terms. -/
def specMatches (terms : List String) (m : DbMember) : Bool :=
  terms.any fun term => specMatchesTerm m term

/-! ### Concrete fixtures used by witnesses and counterexamples -/

def alice : DbMember :=
  { id := 1, name := "Alice", email := "alice@example.com", role := "React Developer",
    description := none, skills := some [], profile_picture := none, team := none,
    embedding := some [1] }

def bob : DbMember :=
  { id := 2, name := "Bob", email := "bob@example.com", role := "Designer",
    description := none, skills := some ["React"], profile_picture := none, team := none,
    embedding := none }

/-- Environment where the semantic path succeeds. -/
def envA : Env :=
  { envOk := true, embed := fun _ => Except.ok [1], dist := fun _ _ => 0,
    table := [alice], rpcError := none, textError := none }

/-- Environment where embedding generation fails and the text path works. -/
def envB : Env :=
  { envOk := true, embed := fun _ => Except.error "Failed to generate embedding",
    dist := fun _ _ => 0, table := [alice], rpcError := none, textError := none }

/-- Environment where both search paths fail. -/
def envC : Env :=
  { envOk := true, embed := fun _ => Except.error "Failed to generate embedding",
    dist := fun _ _ => 0, table := [alice], rpcError := none, textError := some "db down" }

/-- Environment with eleven members, all matching, for the limit-default claim. -/
def envD : Env :=
  { envOk := true, embed := fun _ => Except.ok [1], dist := fun _ _ => 0,
    table := List.replicate 11 alice, rpcError := none, textError := none }

/-- The semantic-path result for `alice` at distance `0`. -/
def resA : SearchResult :=
  { id := 1, name := "Alice", email := "alice@example.com", role := "React Developer",
    description := none, skills := [], profile_picture := none, team := none,
    similarity_score := 1 }

/-- The text-path result for `alice` and the query `"react"`. -/
def resB : SearchResult :=
  { id := 1, name := "Alice", email := "alice@example.com", role := "React Developer",
    description := none, skills := [], profile_picture := none, team := none,
    similarity_score := mkRat 1 5 }

/-! ### Helper lemmas -/

theorem mkRat_one_five : (mkRat 1 5 : Rat) = 1/5 := by
  rw [Rat.mkRat_eq_divInt, Rat.divInt_eq_div]
  norm_num

theorem mkRat_one_ten : (mkRat 1 10 : Rat) = 1/10 := by
  rw [Rat.mkRat_eq_divInt, Rat.divInt_eq_div]
  norm_num

theorem jsOrZero_eq (x : Rat) : jsOrZero x = x := by
  by_cases h : x = 0
  · simp [jsOrZero, h]
  · simp [jsOrZero, h]

theorem match_members_length_le (dist : Emb → Emb → Rat) (table : List DbMember)
    (qe : Emb) (N : Nat) (t : Rat) : (match_members dist table qe N t).length ≤ N :=
  List.length_take_le N _

theorem mem_match_members {dist : Emb → Emb → Rat} {table : List DbMember} {qe : Emb}
    {N : Nat} {t : Rat} {r : MatchRow} (h : r ∈ match_members dist table qe N t) :
    ∃ m ∈ table, ∃ e, m.embedding = some e ∧ t ≤ ratSub 1 (dist e qe) ∧
      r = matchRowOf dist qe m e := by
  unfold match_members at h
  have h1 := List.take_subset N _ h
  have h2 := (List.perm_insertionSort distLe _).subset h1
  obtain ⟨m, hm, hf⟩ := List.mem_filterMap.mp h2
  refine ⟨m, hm, ?_⟩
  split at hf
  · cases hf
  · next e heq =>
    split at hf
    · next ht => exact ⟨e, heq, ht, (Option.some.inj hf).symm⟩
    · cases hf

theorem match_members_mem_props {dist : Emb → Emb → Rat} {table : List DbMember} {qe : Emb}
    {N : Nat} {t : Rat} {r : MatchRow} (h : r ∈ match_members dist table qe N t) :
    r.match_score = 1 - r.distance ∧ t ≤ r.match_score := by
  obtain ⟨m, -, e, -, ht, rfl⟩ := mem_match_members h
  exact ⟨ratSub_eq 1 (dist e qe), ht⟩

theorem match_members_pairwise_dist (dist : Emb → Emb → Rat) (table : List DbMember)
    (qe : Emb) (N : Nat) (t : Rat) : (match_members dist table qe N t).Pairwise distLe := by
  have hs : List.Pairwise distLe (List.insertionSort distLe
      (table.filterMap fun m =>
        match m.embedding with
        | none => none
        | some e =>
          if t ≤ ratSub 1 (dist e qe) then some (matchRowOf dist qe m e) else none)) :=
    List.sorted_insertionSort distLe _
  exact hs.sublist (List.take_sublist N _)

theorem performSemanticSearch_ok {env : Env} {q : String} {lim : Nat}
    {rs : List SearchResult} (h : performSemanticSearch env q lim = Except.ok rs) :
    ∃ qe, env.embed q = Except.ok qe ∧ env.rpcError = none ∧
      rs = (match_members env.dist env.table qe lim (mkRat 1 10)).map semanticResultOf := by
  unfold performSemanticSearch at h
  split at h
  · cases h
  · next qe heq =>
    split at h
    · cases h
    · next hrpc => exact ⟨qe, heq, hrpc, (Except.ok.inj h).symm⟩

theorem performTextSearch_ok {env : Env} {q : String} {lim : Nat}
    {rs : List SearchResult} (h : performTextSearch env q lim = Except.ok rs) :
    env.textError = none ∧
      rs = List.insertionSort scoreGe
        ((textFetch env.table (searchTerms q) lim).map fun m =>
          textResultOf (searchTerms q) m) := by
  unfold performTextSearch at h
  split at h
  · cases h
  · next htext => exact ⟨htext, (Except.ok.inj h).symm⟩

theorem textFetch_subset (table : List DbMember) (terms : List String) (lim : Nat) :
    textFetch table terms lim ⊆ table := by
  intro m hm
  unfold textFetch at hm
  have h1 := List.take_subset lim _ hm
  have h2 := (List.perm_insertionSort nameLe _).subset h1
  by_cases he : terms.isEmpty
  · rw [if_pos he] at h2; exact h2
  · rw [if_neg he] at h2; exact (List.mem_filter.mp h2).1

theorem textFetch_length_le (table : List DbMember) (terms : List String) (lim : Nat) :
    (textFetch table terms lim).length ≤ lim :=
  List.length_take_le lim _

theorem performSemanticSearch_ok_length {env : Env} {q : String} {lim : Nat}
    {rs : List SearchResult} (h : performSemanticSearch env q lim = Except.ok rs) :
    rs.length ≤ lim := by
  obtain ⟨qe, -, -, rfl⟩ := performSemanticSearch_ok h
  rw [List.length_map]
  exact match_members_length_le env.dist env.table qe lim (mkRat 1 10)

theorem performTextSearch_ok_length {env : Env} {q : String} {lim : Nat}
    {rs : List SearchResult} (h : performTextSearch env q lim = Except.ok rs) :
    rs.length ≤ lim := by
  obtain ⟨-, rfl⟩ := performTextSearch_ok h
  rw [(List.perm_insertionSort scoreGe _).length_eq, List.length_map]
  exact textFetch_length_le env.table (searchTerms q) lim

theorem textScore_foldl (mt : String) (terms : List String) (s : Rat) :
    terms.foldl
        (fun score term => if strIncludes mt term then ratAdd score (mkRat 1 5) else score) s
      = s + ((terms.countP fun term => strIncludes mt term : Nat) : Rat) * (1/5) := by
  induction terms generalizing s with
  | nil => simp
  | cons t ts ih =>
    simp only [List.foldl_cons, List.countP_cons]
    by_cases h : strIncludes mt t = true
    · rw [if_pos h, ih, ratAdd_eq, mkRat_one_five]
      simp only [h, if_pos]
      push_cast
      ring
    · rw [if_neg h, ih]
      simp [h]

theorem textScore_eq (terms : List String) (m : DbMember) :
    textScore terms m =
      min (((terms.countP fun t => strIncludes (memberText m) t : Nat) : Rat) * (1/5)) 1 := by
  unfold textScore
  rw [textScore_foldl, zero_add]

theorem semantic_results_pairwise {env : Env} {q : String} {lim : Nat}
    {rs : List SearchResult} (h : performSemanticSearch env q lim = Except.ok rs) :
    rs.Pairwise scoreGe := by
  obtain ⟨qe, -, -, rfl⟩ := performSemanticSearch_ok h
  rw [List.pairwise_map]
  refine (match_members_pairwise_dist env.dist env.table qe lim (mkRat 1 10)).imp_of_mem ?_
  intro a b ha hb hab
  have hA := (match_members_mem_props ha).1
  have hB := (match_members_mem_props hb).1
  show jsOrZero b.match_score ≤ jsOrZero a.match_score
  rw [jsOrZero_eq, jsOrZero_eq, hA, hB]
  exact sub_le_sub_left hab 1

theorem text_results_pairwise {env : Env} {q : String} {lim : Nat}
    {rs : List SearchResult} (h : performTextSearch env q lim = Except.ok rs) :
    rs.Pairwise scoreGe := by
  obtain ⟨-, rfl⟩ := performTextSearch_ok h
  exact List.sorted_insertionSort scoreGe _

theorem searchPipeline_success {env : Env} {query : String} {limit : Nat}
    {q : String} {rs : List SearchResult} {c : Nat}
    (h : (searchPipeline env query limit).body = ResponseBody.successBody q rs c) :
    q = query ∧ c = rs.length ∧
      (performSemanticSearch env query limit = Except.ok rs ∨
       performTextSearch env query limit = Except.ok rs) := by
  unfold searchPipeline at h
  split at h
  · next results hsem =>
    injection h with h1 h2 h3
    subst h1; subst h2
    exact ⟨rfl, h3.symm, Or.inl hsem⟩
  · next e hsem =>
    split at h
    · next results htext =>
      injection h with h1 h2 h3
      subst h1; subst h2
      exact ⟨rfl, h3.symm, Or.inr htext⟩
    · next e2 htext => cases h

theorem handle_success {env : Env} {req : SearchRequest} {q : String}
    {rs : List SearchResult} {c : Nat}
    (h : (handle env req).body = ResponseBody.successBody q rs c) :
    ∃ rb rawQuery, req.body = some rb ∧ rb.query = some rawQuery ∧
      q = jsTrim rawQuery ∧ c = rs.length ∧
      (performSemanticSearch env (jsTrim rawQuery) (effectiveLimit rb.limit) = Except.ok rs ∨
       performTextSearch env (jsTrim rawQuery) (effectiveLimit rb.limit) = Except.ok rs) := by
  unfold handle at h
  split at h
  · simp at h
  · split at h
    · simp at h
    · split at h
      · simp at h
      · split at h
        · simp at h
        · next rb hbody =>
          split at h
          · simp at h
          · next rawQuery hquery =>
            split at h
            · simp at h
            · split at h
              · simp at h
              · obtain ⟨h1, h2, h3⟩ := searchPipeline_success h
                exact ⟨rb, rawQuery, hbody, hquery, h1, h2, h3⟩

theorem handle_limit_congr (env : Env) (method : String) (q? : Option String)
    (l1 l2 : Option Nat) (h : effectiveLimit l1 = effectiveLimit l2) :
    handle env ⟨method, some ⟨q?, l1⟩⟩ = handle env ⟨method, some ⟨q?, l2⟩⟩ := by
  unfold handle
  dsimp only
  simp only [h]

theorem contains_iff_mem (l : List String) (a : String) : l.contains a = true ↔ a ∈ l := by
  simp

/-! ### Claims -/

/-- C1: for a valid POST search request, when `performSemanticSearch` fails
(embedding generation or the RPC), the handler invokes `performTextSearch`
with the same query and limit; a text success becomes the 200 success response
(the semantic error value `e` never appears in the response), and only a text
failure makes the request fail, with the generic 500 error body. -/
theorem claim1_semantic_failure_falls_back_to_text
    (env : Env) (rawQuery : String) (lim : Option Nat) (e : String)
    (henv : env.envOk = true) (hne : rawQuery ≠ "")
    (hlen : ¬ (jsTrim rawQuery).length < 3)
    (hsem : performSemanticSearch env (jsTrim rawQuery) (effectiveLimit lim) =
      Except.error e) :
    (∀ rs, performTextSearch env (jsTrim rawQuery) (effectiveLimit lim) = Except.ok rs →
      handle env ⟨"POST", some ⟨some rawQuery, lim⟩⟩ =
        ⟨200, jsonHeaders, ResponseBody.successBody (jsTrim rawQuery) rs rs.length⟩) ∧
    (∀ e2, performTextSearch env (jsTrim rawQuery) (effectiveLimit lim) = Except.error e2 →
      handle env ⟨"POST", some ⟨some rawQuery, lim⟩⟩ =
        ⟨500, jsonHeaders,
          ResponseBody.failureBody "Search functionality is currently unavailable"⟩) := by
  have hh : handle env ⟨"POST", some ⟨some rawQuery, lim⟩⟩ =
      searchPipeline env (jsTrim rawQuery) (effectiveLimit lim) := by
    unfold handle
    dsimp only
    rw [if_neg (by decide), if_neg (by decide), if_neg (by simp [henv]), if_neg hne,
      if_neg hlen]
  constructor
  · intro rs htext
    rw [hh]
    unfold searchPipeline
    rw [hsem, htext]
  · intro e2 htext
    rw [hh]
    unfold searchPipeline
    rw [hsem, htext]

/-- C1 witness: with a failing embedding backend the text results are returned
as a 200 success, and with both backends failing the request fails 500. -/
theorem claim1_witness :
    handle envB ⟨"POST", some ⟨some "react", some 5⟩⟩ =
      ⟨200, jsonHeaders, ResponseBody.successBody "react" [resB] 1⟩ ∧
    handle envC ⟨"POST", some ⟨some "react", some 5⟩⟩ =
      ⟨500, jsonHeaders,
        ResponseBody.failureBody "Search functionality is currently unavailable"⟩ :=
  ⟨(claim1_semantic_failure_falls_back_to_text envB "react" (some 5)
      "Failed to generate embedding" rfl (by decide) (by decide) rfl).1 [resB] rfl,
   (claim1_semantic_failure_falls_back_to_text envC "react" (some 5)
      "Failed to generate embedding" rfl (by decide) (by decide) rfl).2 "db down" rfl⟩

/-- C2: a POST request whose query string is shorter than 3 characters gets a
400 validation error, and no backend is consulted: the response does not
depend on the search environment (embedding model, distance, table, errors). -/
theorem claim2_short_query_rejected_without_backend
    (env env' : Env) (rawQuery : String) (lim : Option Nat)
    (hlen : rawQuery.length < 3) (henv : env.envOk = true) (henv' : env'.envOk = true) :
    (handle env ⟨"POST", some ⟨some rawQuery, lim⟩⟩).status = 400 ∧
    ((handle env ⟨"POST", some ⟨some rawQuery, lim⟩⟩).body =
        ResponseBody.errorOnly "Missing or invalid \"query\" field in request body" ∨
     (handle env ⟨"POST", some ⟨some rawQuery, lim⟩⟩).body =
        ResponseBody.errorOnly "Query must be at least 3 characters long") ∧
    handle env ⟨"POST", some ⟨some rawQuery, lim⟩⟩ =
      handle env' ⟨"POST", some ⟨some rawQuery, lim⟩⟩ := by
  have h3 : (jsTrim rawQuery).length < 3 := lt_of_le_of_lt (jsTrim_length_le rawQuery) hlen
  have key : ∀ e0 : Env, e0.envOk = true →
      handle e0 ⟨"POST", some ⟨some rawQuery, lim⟩⟩ =
        if rawQuery = "" then
          ⟨400, jsonHeaders,
            ResponseBody.errorOnly "Missing or invalid \"query\" field in request body"⟩
        else
          ⟨400, jsonHeaders,
            ResponseBody.errorOnly "Query must be at least 3 characters long"⟩ := by
    intro e0 h0
    unfold handle
    dsimp only
    rw [if_neg (by decide), if_neg (by decide), if_neg (by simp [h0])]
    by_cases hq : rawQuery = ""
    · rw [if_pos hq, if_pos hq]
    · rw [if_neg hq, if_pos h3, if_neg hq]
  refine ⟨?_, ?_, ?_⟩
  · rw [key env henv]
    by_cases hq : rawQuery = ""
    · rw [if_pos hq]
    · rw [if_neg hq]
  · rw [key env henv]
    by_cases hq : rawQuery = ""
    · rw [if_pos hq]; left; rfl
    · rw [if_neg hq]; right; rfl
  · rw [key env henv, key env' henv']

/-- C2 witness: the query "ab" is rejected with 400 identically under two
different environments. -/
theorem claim2_witness :
    (handle envA ⟨"POST", some ⟨some "ab", none⟩⟩).status = 400 ∧
    ((handle envA ⟨"POST", some ⟨some "ab", none⟩⟩).body =
        ResponseBody.errorOnly "Missing or invalid \"query\" field in request body" ∨
     (handle envA ⟨"POST", some ⟨some "ab", none⟩⟩).body =
        ResponseBody.errorOnly "Query must be at least 3 characters long") ∧
    handle envA ⟨"POST", some ⟨some "ab", none⟩⟩ =
      handle envB ⟨"POST", some ⟨some "ab", none⟩⟩ :=
  claim2_short_query_rejected_without_backend envA envB "ab" none (by decide) rfl rfl

/-- C3 counterexample: a request that supplies `limit: 0` still produces a
successful response with one result, although `min(requested_limit, 50) = 0`;
the claimed bound fails for a falsy requested limit. -/
theorem claim3_counterexample :
    (handle envA ⟨"POST", some ⟨some "react", some 0⟩⟩).body =
      ResponseBody.successBody "react" [resA] 1 ∧
    ¬ ((1 : Nat) ≤ min 0 50) :=
  ⟨rfl, by decide⟩

/-- C3 (amended): for every successful search response whose request body
supplied a non-zero limit `n`, the number of results and the `count` field are
at most `min n 50`.  (As stated the claim fails when the supplied limit is 0:
the handler then uses the default 10, see the counterexample.) -/
theorem claim3_count_within_limit_cap
    (env : Env) (req : SearchRequest) (rb : RequestBody) (n : Nat)
    (q : String) (rs : List SearchResult) (c : Nat)
    (hbody : req.body = some rb) (hlim : rb.limit = some n) (hn : n ≠ 0)
    (h : (handle env req).body = ResponseBody.successBody q rs c) :
    rs.length ≤ min n 50 ∧ c = rs.length := by
  obtain ⟨rb', rq, hb', hq', hqq, hc, hpath⟩ := handle_success h
  have hrbeq : rb' = rb := by
    rw [hbody] at hb'
    exact (Option.some.inj hb').symm
  have hel : effectiveLimit rb'.limit = min n 50 := by
    rw [hrbeq, hlim]
    unfold effectiveLimit
    simp [hn]
  refine ⟨?_, hc⟩
  cases hpath with
  | inl hs => rw [← hel]; exact performSemanticSearch_ok_length hs
  | inr ht => rw [← hel]; exact performTextSearch_ok_length ht

/-- C3 witness: a request with limit 5 yields one result, within `min 5 50`. -/
theorem claim3_witness :
    ([resA] : List SearchResult).length ≤ min 5 50 ∧ 1 = ([resA] : List SearchResult).length :=
  claim3_count_within_limit_cap envA ⟨"POST", some ⟨some "react", some 5⟩⟩
    ⟨some "react", some 5⟩ 5 "react" [resA] 1 rfl rfl (by decide) rfl

/-- C4: every member returned by `performTextSearch` carries
`similarity_score = min(0.2 × (number of search terms that occur as substrings
of the member's concatenated name/role/description/skills text), 1.0)`. -/
theorem claim4_text_score_formula
    (env : Env) (q : String) (lim : Nat) (rs : List SearchResult) (r : SearchResult)
    (h : performTextSearch env q lim = Except.ok rs) (hr : r ∈ rs) :
    ∃ m ∈ env.table, r = textResultOf (searchTerms q) m ∧
      r.similarity_score =
        min ((((searchTerms q).countP fun t => strIncludes (memberText m) t : Nat) : Rat)
          * (1/5)) 1 := by
  obtain ⟨-, rfl⟩ := performTextSearch_ok h
  have hr2 := (List.perm_insertionSort scoreGe _).subset hr
  obtain ⟨m, hm, rfl⟩ := List.mem_map.mp hr2
  exact ⟨m, textFetch_subset _ _ _ hm, rfl, textScore_eq (searchTerms q) m⟩

/-- C4 witness: for the query "react" the single text result for `alice`
scores `min(1 × 0.2, 1) = 0.2`. -/
theorem claim4_witness :
    ∃ m ∈ envB.table, resB = textResultOf (searchTerms "react") m ∧
      resB.similarity_score =
        min ((((searchTerms "react").countP
            fun t => strIncludes (memberText m) t : Nat) : Rat) * (1/5)) 1 :=
  claim4_text_score_formula envB "react" 10 [resB] resB rfl (List.mem_singleton.mpr rfl)

/-- C5: the result list of every successful search response is sorted by
non-increasing similarity score. -/
theorem claim5_results_sorted_descending
    (env : Env) (req : SearchRequest) (q : String) (rs : List SearchResult) (c : Nat)
    (h : (handle env req).body = ResponseBody.successBody q rs c) :
    List.Chain' (fun a b => b.similarity_score ≤ a.similarity_score) rs := by
  obtain ⟨rb, rq, -, -, -, -, hpath⟩ := handle_success h
  have hp : rs.Pairwise scoreGe := by
    cases hpath with
    | inl hs => exact semantic_results_pairwise hs
    | inr ht => exact text_results_pairwise ht
  exact hp.chain'

/-- C5 witness: the successful response for "react" under `envA` is sorted. -/
theorem claim5_witness :
    List.Chain' (fun a b : SearchResult => b.similarity_score ≤ a.similarity_score) [resA] :=
  claim5_results_sorted_descending envA ⟨"POST", some ⟨some "react", some 5⟩⟩
    "react" [resA] 1 rfl

/-- C6: every similarity score of a successful search response lies in [0, 1],
provided the distance operator is non-negative (cosine distance is): the text
path is `min(non-negative, 1)`, the semantic path keeps only rows with
`match_score = 1 - dist ≥ 0.1`.  -/
theorem claim6_scores_in_unit_interval
    (env : Env) (req : SearchRequest) (q : String) (rs : List SearchResult) (c : Nat)
    (r : SearchResult) (hdist : ∀ e1 e2, 0 ≤ env.dist e1 e2)
    (h : (handle env req).body = ResponseBody.successBody q rs c) (hr : r ∈ rs) :
    0 ≤ r.similarity_score ∧ r.similarity_score ≤ 1 := by
  obtain ⟨rb, rq, -, -, -, -, hpath⟩ := handle_success h
  cases hpath with
  | inl hs =>
    obtain ⟨qe, -, -, rfl⟩ := performSemanticSearch_ok hs
    obtain ⟨row, hrow, rfl⟩ := List.mem_map.mp hr
    have hprops := match_members_mem_props hrow
    have hth := hprops.2
    show 0 ≤ jsOrZero row.match_score ∧ jsOrZero row.match_score ≤ 1
    rw [jsOrZero_eq]
    have h01 : (mkRat 1 10 : Rat) = 1/10 := mkRat_one_ten
    constructor
    · rw [h01] at hth
      linarith
    · obtain ⟨m, -, e, -, -, rfl⟩ := mem_match_members hrow
      show ratSub 1 (env.dist e qe) ≤ 1
      rw [ratSub_eq]
      have := hdist e qe
      linarith
  | inr ht =>
    obtain ⟨-, rfl⟩ := performTextSearch_ok ht
    have hr2 := (List.perm_insertionSort scoreGe _).subset hr
    obtain ⟨m, -, rfl⟩ := List.mem_map.mp hr2
    show 0 ≤ textScore (searchTerms (jsTrim rq)) m ∧ textScore (searchTerms (jsTrim rq)) m ≤ 1
    rw [textScore_eq]
    constructor
    · apply le_min
      · positivity
      · norm_num
    · exact min_le_right _ _

/-- C6 witness: the semantic result for "react" under `envA` scores 1 ∈ [0,1]. -/
theorem claim6_witness :
    0 ≤ resA.similarity_score ∧ resA.similarity_score ≤ 1 :=
  claim6_scores_in_unit_interval envA ⟨"POST", some ⟨some "react", some 5⟩⟩
    "react" [resA] 1 resA (fun _ _ => le_refl 0) rfl (List.mem_singleton.mpr rfl)

/-- C7: the `match_members` contract — at most `match_count` rows; every row
comes from a member with a non-null embedding, carries
`match_score = 1 - dist` and `distance = dist`, and meets the similarity
threshold; rows are ordered by ascending distance, equivalently by descending
similarity; the threshold default is 0.1 and the orchestrator always passes
0.1 to the RPC. -/
theorem claim7_match_members_contract
    (dist : Emb → Emb → Rat) (table : List DbMember) (qe : Emb) (N : Nat) (t : Rat) :
    (match_members dist table qe N t).length ≤ N ∧
    (∀ r ∈ match_members dist table qe N t,
      ∃ m ∈ table, ∃ e, m.embedding = some e ∧
        r.match_score = 1 - dist e qe ∧ r.distance = dist e qe ∧ t ≤ r.match_score) ∧
    List.Chain' (fun a b => a.distance ≤ b.distance) (match_members dist table qe N t) ∧
    List.Chain' (fun a b => b.match_score ≤ a.match_score) (match_members dist table qe N t) ∧
    similarity_threshold_default = 1/10 ∧
    (∀ env : Env, ∀ q lim qe', env.embed q = Except.ok qe' → env.rpcError = none →
      performSemanticSearch env q lim =
        Except.ok ((match_members env.dist env.table qe' lim
          similarity_threshold_default).map semanticResultOf)) := by
  refine ⟨match_members_length_le dist table qe N t, ?_, ?_, ?_, mkRat_one_ten, ?_⟩
  · intro r hr
    obtain ⟨m, hm, e, hemb, ht, rfl⟩ := mem_match_members hr
    exact ⟨m, hm, e, hemb, ratSub_eq 1 (dist e qe), rfl, ht⟩
  · exact (match_members_pairwise_dist dist table qe N t).chain'
  · have hp := match_members_pairwise_dist dist table qe N t
    refine (hp.imp_of_mem ?_).chain'
    intro a b ha hb hab
    have hA := (match_members_mem_props ha).1
    have hB := (match_members_mem_props hb).1
    rw [hA, hB]
    exact sub_le_sub_left hab 1
  · intro env q lim qe' hemb hrpc
    unfold performSemanticSearch
    rw [hemb, hrpc]
    rfl

/-- C7 witness: the contract instantiated at a one-member table with distance
constantly 0, plus the orchestrator conjunct discharged at `envA`. -/
theorem claim7_witness :
    (match_members (fun _ _ => 0) [alice] [1] 5 (mkRat 1 10)).length ≤ 5 ∧
    performSemanticSearch envA "react" 5 =
      Except.ok ((match_members envA.dist envA.table [1] 5
        similarity_threshold_default).map semanticResultOf) :=
  ⟨(claim7_match_members_contract (fun _ _ => 0) [alice] [1] 5 (mkRat 1 10)).1,
   (claim7_match_members_contract (fun _ _ => 0) [alice] [1] 5
      (mkRat 1 10)).2.2.2.2.2 envA "react" 5 [1] rfl rfl⟩

/-- C8 counterexample: a POST request with a too-short query is answered with
the bare `{error}` body, which is neither the claimed success shape
`{success, query, results, count, timestamp}` nor the claimed error shape
`{success: false, error, timestamp}`. -/
theorem claim8_counterexample :
    (⟨"POST", some ⟨some "ab", none⟩⟩ : SearchRequest).method = "POST" ∧
    ¬ ((∃ q rs c, (handle envA ⟨"POST", some ⟨some "ab", none⟩⟩).body =
          ResponseBody.successBody q rs c) ∨
       (∃ e, (handle envA ⟨"POST", some ⟨some "ab", none⟩⟩).body =
          ResponseBody.failureBody e)) := by
  refine ⟨rfl, ?_⟩
  have hb : (handle envA ⟨"POST", some ⟨some "ab", none⟩⟩).body =
      ResponseBody.errorOnly "Query must be at least 3 characters long" := rfl
  rintro (⟨q, rs, c, h⟩ | ⟨e, h⟩) <;> rw [hb] at h <;> exact ResponseBody.noConfusion h

/-- C8 (amended): OPTIONS is answered 200 with the CORS headers; any method
other than OPTIONS and POST is rejected 405; a POST request is answered either
with the success body `{success, query, results, count, timestamp}` (status
200), or with the error body `{success: false, error, timestamp}` (status
500), or — for JSON/validation failures, which the claim as stated omits —
with a bare `{error}` body (status 400). -/
theorem claim8_http_contract (env : Env) (req : SearchRequest) :
    (req.method = "OPTIONS" →
      handle env req = ⟨200, corsHeaders, ResponseBody.empty⟩) ∧
    (req.method ≠ "OPTIONS" → req.method ≠ "POST" →
      handle env req =
        ⟨405, jsonHeaders, ResponseBody.errorOnly "Method not allowed. Use POST."⟩) ∧
    (req.method = "POST" →
      (∃ q rs, (handle env req).status = 200 ∧
        (handle env req).body = ResponseBody.successBody q rs rs.length) ∨
      (∃ e, (handle env req).status = 500 ∧
        (handle env req).body = ResponseBody.failureBody e) ∨
      (∃ e, (handle env req).status = 400 ∧
        (handle env req).body = ResponseBody.errorOnly e)) := by
  refine ⟨?_, ?_, ?_⟩
  · intro hm
    unfold handle
    rw [if_pos hm]
  · intro h1 h2
    unfold handle
    rw [if_neg h1, if_pos h2]
  · intro hm
    unfold handle
    rw [if_neg (by simp [hm]), if_neg (by simp [hm])]
    by_cases henv : env.envOk = false
    · rw [if_pos henv]
      exact Or.inr (Or.inl ⟨_, rfl, rfl⟩)
    · rw [if_neg henv]
      cases hb : req.body with
      | none => exact Or.inr (Or.inr ⟨_, rfl, rfl⟩)
      | some rb =>
        dsimp only
        cases hq : rb.query with
        | none => exact Or.inr (Or.inr ⟨_, rfl, rfl⟩)
        | some rq =>
          dsimp only
          by_cases hrq : rq = ""
          · rw [if_pos hrq]
            exact Or.inr (Or.inr ⟨_, rfl, rfl⟩)
          · rw [if_neg hrq]
            by_cases hlen : (jsTrim rq).length < 3
            · rw [if_pos hlen]
              exact Or.inr (Or.inr ⟨_, rfl, rfl⟩)
            · rw [if_neg hlen]
              unfold searchPipeline
              cases hs : performSemanticSearch env (jsTrim rq) (effectiveLimit rb.limit) with
              | ok results => exact Or.inl ⟨jsTrim rq, results, rfl, rfl⟩
              | error e =>
                cases ht : performTextSearch env (jsTrim rq) (effectiveLimit rb.limit) with
                | ok results => exact Or.inl ⟨jsTrim rq, results, rfl, rfl⟩
                | error e2 => exact Or.inr (Or.inl ⟨_, rfl, rfl⟩)

/-- C8 witness: the OPTIONS and 405 branches of the contract at concrete
requests. -/
theorem claim8_witness :
    handle envA ⟨"OPTIONS", none⟩ = ⟨200, corsHeaders, ResponseBody.empty⟩ ∧
    handle envA ⟨"GET", none⟩ =
      ⟨405, jsonHeaders, ResponseBody.errorOnly "Method not allowed. Use POST."⟩ :=
  ⟨(claim8_http_contract envA ⟨"OPTIONS", none⟩).1 rfl,
   (claim8_http_contract envA ⟨"GET", none⟩).2.1 (by decide) (by decide)⟩

/-- C9 counterexample: the code's filter diverges from the claim: for the query
"react" and a member whose only hit is the skill entry "React", the spec's
substring predicate matches but the code's `skills.cs.{term}` (exact,
case-sensitive array containment) does not. -/
theorem claim9_counterexample :
    ¬ (searchTerms "react" = specSearchTerms "react" ∧
       memberMatches (searchTerms "react") bob = specMatches (specSearchTerms "react") bob) :=
  fun h => absurd h.2 (by decide)

/-- C9 (amended): the text matcher splits the lowercased query at the space
character (not at arbitrary whitespace), keeps exactly the terms longer than 2
characters, and ORs, per term, case-insensitive substring match on name, role
and description with exact (case-sensitive) array membership on skills — not
substring match on skills. -/
theorem claim9_text_filter_structure (q : String) (m : DbMember) :
    searchTerms q = ((jsSplitSpace (jsToLower q)).filter fun term => 2 < term.length) ∧
    (∀ term ∈ searchTerms q, 2 < term.length) ∧
    (memberMatches (searchTerms q) m = true ↔
      ∃ term ∈ searchTerms q,
        (strIncludes (jsToLower m.name) term = true ∨
         strIncludes (jsToLower m.role) term = true ∨
         (∃ d, m.description = some d ∧ strIncludes (jsToLower d) term = true) ∨
         term ∈ m.skills.getD [])) := by
  refine ⟨rfl, ?_, ?_⟩
  · intro term ht
    simpa using (List.mem_filter.mp ht).2
  · unfold memberMatches
    rw [List.any_eq_true]
    apply exists_congr
    intro term
    apply and_congr_right
    intro hmem
    unfold memberMatchesTerm
    rw [Bool.or_eq_true, Bool.or_eq_true, Bool.or_eq_true]
    cases hd : m.description with
    | none =>
      constructor
      · rintro (((h1 | h1) | h1) | h1)
        · exact Or.inl h1
        · exact Or.inr (Or.inl h1)
        · cases h1
        · exact Or.inr (Or.inr (Or.inr ((contains_iff_mem _ _).mp h1)))
      · rintro (h1 | h1 | ⟨d, hdd, h1⟩ | h1)
        · exact Or.inl (Or.inl (Or.inl h1))
        · exact Or.inl (Or.inl (Or.inr h1))
        · cases hdd
        · exact Or.inr ((contains_iff_mem _ _).mpr h1)
    | some d0 =>
      constructor
      · rintro (((h1 | h1) | h1) | h1)
        · exact Or.inl h1
        · exact Or.inr (Or.inl h1)
        · exact Or.inr (Or.inr (Or.inl ⟨d0, rfl, h1⟩))
        · exact Or.inr (Or.inr (Or.inr ((contains_iff_mem _ _).mp h1)))
      · rintro (h1 | h1 | ⟨d, hdd, h1⟩ | h1)
        · exact Or.inl (Or.inl (Or.inl h1))
        · exact Or.inl (Or.inl (Or.inr h1))
        · cases hdd
          exact Or.inl (Or.inr h1)
        · exact Or.inr ((contains_iff_mem _ _).mpr h1)

/-- C9 witness: the amended characterisation instantiated at the query
"react dev" and the member `alice`. -/
theorem claim9_witness :
    memberMatches (searchTerms "react dev") alice = true ↔
      ∃ term ∈ searchTerms "react dev",
        (strIncludes (jsToLower alice.name) term = true ∨
         strIncludes (jsToLower alice.role) term = true ∨
         (∃ d, alice.description = some d ∧ strIncludes (jsToLower d) term = true) ∨
         term ∈ alice.skills.getD []) :=
  (claim9_text_filter_structure "react dev" alice).2.2

/-- C10: a falsy `limit` field (absent or 0) makes the handler behave exactly
as if the limit were 10 on both search paths, so a successful response then
carries at most 10 results; in particular a caller sending `limit: 0` can
receive up to 10 results. -/
theorem claim10_falsy_limit_defaults_to_ten
    (env : Env) (method : String) (q? : Option String) (lim : Option Nat)
    (hl : lim = none ∨ lim = some 0) :
    handle env ⟨method, some ⟨q?, lim⟩⟩ = handle env ⟨method, some ⟨q?, some 10⟩⟩ ∧
    (∀ q rs c, (handle env ⟨method, some ⟨q?, lim⟩⟩).body = ResponseBody.successBody q rs c →
      rs.length ≤ 10) := by
  have hel : effectiveLimit lim = 10 := by
    cases hl with
    | inl h => rw [h]; rfl
    | inr h => rw [h]; rfl
  constructor
  · exact handle_limit_congr env method q? lim (some 10) (by rw [hel]; rfl)
  · intro q rs c h
    obtain ⟨rb, rq, hb, -, -, -, hpath⟩ := handle_success h
    have hrb : rb = ⟨q?, lim⟩ := by
      exact (Option.some.inj hb).symm
    rw [hrb] at hpath
    cases hpath with
    | inl hs =>
      have := performSemanticSearch_ok_length hs
      rwa [hel] at this
    | inr ht =>
      have := performTextSearch_ok_length ht
      rwa [hel] at this

/-- C10 witness: with eleven matching members and `limit: 0`, the handler
behaves as with limit 10 and returns exactly ten results. -/
theorem claim10_witness :
    handle envD ⟨"POST", some ⟨some "react", some 0⟩⟩ =
      handle envD ⟨"POST", some ⟨some "react", some 10⟩⟩ ∧
    (List.replicate 10 resA).length ≤ 10 :=
  ⟨(claim10_falsy_limit_defaults_to_ten envD "POST" (some "react") (some 0) (Or.inr rfl)).1,
   (claim10_falsy_limit_defaults_to_ten envD "POST" (some "react") (some 0) (Or.inr rfl)).2
     "react" (List.replicate 10 resA) 10 rfl⟩

end SemanticSearch
